import Mathlib

/-!
Shallow embedding of the Z80 target-memory model of sjasmplus
(src/sjasm/memory.h): the flat 64K PlainMemModel, the banked ZXMemModel,
and the MemoryManager registry, with theorems about byte/word writes,
ephemeral-write rollback, paging queries and page-addressed writes.

Machine integers are embedded as Nat with explicit reduction modulo 2^16
(for uint16_t parameters) and 2^8 (for uint8_t parameters) at each
operation entry, mirroring the implicit conversions at C++ call
boundaries.  C++ int parameters whose negative values matter are embedded
as Int.  A fatal unrecoverable failure (the Fatal(...) call) and undefined
behaviour (out-of-bounds array indexing) are both embedded as a none
result of an Option-returning operation.
-/

/-- The flat 64K memory model (class PlainMemModel in memory.h): a
0x10000-byte array Memory and a 0x10000-bit used-marker bitset MemUsage. -/
@[ext] structure PlainMemModel where
  Memory : Fin 0x10000 → Nat
  MemUsage : Fin 0x10000 → Bool

namespace PlainMemModel

/-- PlainMemModel.clear: Memory.fill(0); MemUsage.reset(). -/
def clear (_s : PlainMemModel) : PlainMemModel :=
  { Memory := fun _ => 0, MemUsage := fun _ => false }

/-- The PlainMemModel constructor calls clear(), so a fresh model is the
all-zero state. -/
def plainFresh : PlainMemModel :=
  { Memory := fun _ => 0, MemUsage := fun _ => false }

/-- PlainMemModel.readByte: return Memory[Addr], the address being a
uint16_t parameter (hence the entry reduction modulo 0x10000). -/
def readByte (s : PlainMemModel) (Addr : Nat) : Nat :=
  s.Memory ⟨Addr % 0x10000, by omega⟩

/-- PlainMemModel.writeByte: Memory[Addr] = Byte; if not Ephemeral,
MemUsage[Addr] = true.  Addr is uint16_t, Byte is uint8_t. -/
def writeByte (s : PlainMemModel) (Addr Byte : Nat) (Ephemeral : Bool) :
    PlainMemModel :=
  { Memory := fun i =>
      if i = (⟨Addr % 0x10000, by omega⟩ : Fin 0x10000) then Byte % 256
      else s.Memory i
    MemUsage :=
      if Ephemeral then s.MemUsage
      else fun i =>
        if i = (⟨Addr % 0x10000, by omega⟩ : Fin 0x10000) then true
        else s.MemUsage i }

/-- MemModel.writeWord (base class, shared by both variants): two
writeByte calls, low byte (Word and 0xff) first at Addr, then high byte
(Word shifted right by 8) at (uint16_t)(Addr + 1). -/
def writeWord (s : PlainMemModel) (Addr Word : Nat) (Ephemeral : Bool) :
    PlainMemModel :=
  (s.writeByte Addr (Word % 0x10000 % 256) Ephemeral).writeByte
    (Addr % 0x10000 + 1) (Word % 0x10000 / 256) Ephemeral

/-- PlainMemModel.usedAddr: return MemUsage[Addr]. -/
def usedAddr (s : PlainMemModel) (Addr : Nat) : Bool :=
  s.MemUsage ⟨Addr % 0x10000, by omega⟩

/-- PlainMemModel.clearEphemerals: for every index i of the 0x10000-entry
array, if MemUsage[i] is false then Memory[i] = 0.  The loop iterations
are independent, so the loop is embedded pointwise. -/
def clearEphemerals (s : PlainMemModel) : PlainMemModel :=
  { Memory := fun i => if s.MemUsage i then s.Memory i else 0
    MemUsage := s.MemUsage }

/-- PlainMemModel.getBytes (logical-address form): Dest[i] = Memory[Addr + i]
for i in [0, Size).  Addr is uint16_t but the index Addr + i is computed in
int arithmetic and is NOT reduced modulo 0x10000; indexing the 0x10000-byte
std::array out of range is undefined behaviour, embedded as none. -/
def getBytes (s : PlainMemModel) (Addr Size : Nat) : Option (List Nat) :=
  (List.range Size).mapM fun i =>
    if h : Addr % 0x10000 + i < 0x10000 then
      some (s.Memory ⟨Addr % 0x10000 + i, h⟩)
    else none

/-- PlainMemModel.isPagedMemory: false. -/
def isPagedMemory (_s : PlainMemModel) : Bool := false

/-- PlainMemModel.getNumMemPages: 0. -/
def getNumMemPages (_s : PlainMemModel) : Nat := 0

/-- PlainMemModel.getDefaultSlot: 0. -/
def getDefaultSlot (_s : PlainMemModel) : Nat := 0

/-- The fixed error string returned by PlainMemModel.setPage. -/
def plainNoPagingError : String :=
  "The PLAIN memory model does not support page switching"

/-- PlainMemModel.setPage (slot form): return the fixed error string;
the method body performs no mutation, so the state is returned unchanged. -/
def setPage (s : PlainMemModel) (_Slot _Page : Int) :
    PlainMemModel × Option String :=
  (s, some plainNoPagingError)

/-- PlainMemModel.setPage (address form): return setPage(0, 0). -/
def setPageAddr (s : PlainMemModel) (_CurrentAddr : Nat) (_Page : Int) :
    PlainMemModel × Option String :=
  s.setPage 0 0

/-- PlainMemModel.validateSlot: return setPage(0, 0), i.e. always the
fixed error string, for every slot argument. -/
def validateSlot (s : PlainMemModel) (_Slot : Int) : Option String :=
  (s.setPage 0 0).2

/-- PlainMemModel.getPageForAddress: 0 for every address. -/
def getPageForAddress (_s : PlainMemModel) (_CurrentAddr : Nat) : Nat := 0

end PlainMemModel

/-- The size of one physical page: 0x4000 bytes (ZXMemModel.PageSize). -/
def ZXPageSize : Nat := 0x4000

/-- The number of slots of the banked model: 4 (ZXMemModel.NumSlots). -/
def ZXNumSlots : Nat := 4

/-- The banked memory model (class ZXMemModel in memory.h): NumPages
16K pages in one vector Memory with a parallel used-marker vector
MemUsage, and a slot-to-page mapping SlotPages of 4 entries.  The two
vectors have NumPages * 0x4000 elements; Memory and MemUsage are embedded
as total functions, with every bulk loop guarded by the vector size. -/
@[ext] structure ZXMemModel where
  NumPages : Nat
  SlotPages : Fin 4 → Nat
  Memory : Nat → Nat
  MemUsage : Nat → Bool

namespace ZXMemModel

/-- ZXMemModel.addrToOffset: SlotPages[Addr / PageSize] * PageSize +
(Addr % PageSize), for a uint16_t Addr (entry reduction modulo 0x10000,
which also bounds the slot index below 4). -/
def addrToOffset (m : ZXMemModel) (Addr : Nat) : Nat :=
  m.SlotPages ⟨Addr % 0x10000 / 0x4000, by omega⟩ * 0x4000 +
    Addr % 0x10000 % 0x4000

/-- ZXMemModel.readByte: Memory[addrToOffset(Addr)]. -/
def readByte (m : ZXMemModel) (Addr : Nat) : Nat :=
  m.Memory (m.addrToOffset Addr)

/-- ZXMemModel.writeByte: Memory[addrToOffset(Addr)] = Byte; if not
Ephemeral, MemUsage at the same offset = true. -/
def writeByte (m : ZXMemModel) (Addr Byte : Nat) (Ephemeral : Bool) :
    ZXMemModel :=
  { m with
    Memory := fun j =>
      if j = m.addrToOffset Addr then Byte % 256 else m.Memory j
    MemUsage :=
      if Ephemeral then m.MemUsage
      else fun j =>
        if j = m.addrToOffset Addr then true else m.MemUsage j }

/-- MemModel.writeWord for the banked variant: two writeByte calls, low
byte first at Addr, high byte at (uint16_t)(Addr + 1). -/
def writeWord (m : ZXMemModel) (Addr Word : Nat) (Ephemeral : Bool) :
    ZXMemModel :=
  (m.writeByte Addr (Word % 0x10000 % 256) Ephemeral).writeByte
    (Addr % 0x10000 + 1) (Word % 0x10000 / 256) Ephemeral

/-- ZXMemModel.usedAddr: MemUsage[addrToOffset(Addr)]. -/
def usedAddr (m : ZXMemModel) (Addr : Nat) : Bool :=
  m.MemUsage (m.addrToOffset Addr)

/-- ZXMemModel.clear: assign 0 to every element of Memory and false to
every element of MemUsage (the vectors have NumPages * 0x4000 elements). -/
def clear (m : ZXMemModel) : ZXMemModel :=
  { m with
    Memory := fun i => if i < m.NumPages * 0x4000 then 0 else m.Memory i
    MemUsage := fun i => if i < m.NumPages * 0x4000 then false else m.MemUsage i }

/-- ZXMemModel.clearEphemerals: for every index i below Memory.size()
(= NumPages * 0x4000), if MemUsage[i] is false then Memory[i] = 0.
The loop iterations are independent, so the loop is embedded pointwise. -/
def clearEphemerals (m : ZXMemModel) : ZXMemModel :=
  { m with
    Memory := fun i =>
      if i < m.NumPages * 0x4000 ∧ m.MemUsage i = false then 0
      else m.Memory i }

/-- ZXMemModel.getBytes (logical-address form): Dest[i] = readByte(Addr + i)
for i in [0, Size); the sum Addr + i is converted back to uint16_t by the
readByte parameter, so the read wraps around the 16-bit address space. -/
def getBytes (m : ZXMemModel) (Addr Size : Nat) : List Nat :=
  (List.range Size).map fun i => m.readByte (Addr % 0x10000 + i)

/-- ZXMemModel.isPagedMemory: true. -/
def isPagedMemory (_m : ZXMemModel) : Bool := true

/-- ZXMemModel.getNumMemPages: NumPages. -/
def getNumMemPages (m : ZXMemModel) : Nat := m.NumPages

/-- ZXMemModel.getDefaultSlot: 3. -/
def getDefaultSlot (_m : ZXMemModel) : Nat := 3

/-- ZXMemModel.getPageNumInSlot: SlotPages[Slot] (the int[4] array is
indexed in range, so the slot argument is embedded as Fin 4). -/
def getPageNumInSlot (m : ZXMemModel) (Slot : Fin 4) : Nat :=
  m.SlotPages Slot

/-- Modelled from the spec: ZXMemModel.getPageForAddress is declared in
memory.h but defined in memory.cpp, which is not under src/.  Spec, section 4.1:
"getPageForAddress(addr) -> the page number currently mapped to the slot
of addr", the slot of a uint16_t address being Addr / PageSize. -/
def getPageForAddress (m : ZXMemModel) (CurrentAddr : Nat) : Nat :=
  m.SlotPages ⟨CurrentAddr % 0x10000 / 0x4000, by omega⟩

/-- Modelled from the spec: ZXMemModel.validateSlot is defined in
memory.cpp, which is not under src/.  Spec, section 4.1: "validateSlot(slot) ->
returns an error message if slot is out of range, otherwise none";
the range is [0, NumSlots) with NumSlots = 4.  The slot is a C++ int. -/
def validateSlot (_m : ZXMemModel) (Slot : Int) : Option String :=
  if Slot < 0 ∨ (ZXNumSlots : Int) ≤ Slot then
    some "Slot number is out of range"
  else none

/-- ZXMemModel.writeByteToPage: if Offset >= PageSize, Fatal (embedded as
none); otherwise Memory[PageSize * Page + Offset] = Byte and the
used-marker at the same offset is set.  Offset is uint16_t. -/
def writeByteToPage (m : ZXMemModel) (Page Offset Byte : Nat) :
    Option ZXMemModel :=
  if 0x4000 ≤ Offset % 0x10000 then none
  else
    some { m with
      Memory := fun j =>
        if j = 0x4000 * Page + Offset % 0x10000 then Byte % 256
        else m.Memory j
      MemUsage := fun j =>
        if j = 0x4000 * Page + Offset % 0x10000 then true
        else m.MemUsage j }

/-- ZXMemModel.memcpyToPage: writeByteToPage(Page, Offset + i, Src[i]) for
each i below the source size, in order; the first Fatal aborts the run. -/
def memcpyToPage (m : ZXMemModel) (Page Offset : Nat) (Src : List Nat) :
    Option ZXMemModel :=
  match Src with
  | [] => some m
  | b :: rest =>
    match m.writeByteToPage Page Offset b with
    | none => none
    | some m2 => m2.memcpyToPage Page (Offset + 1) rest

/-- ZXMemModel.memsetInPage: writeByteToPage(Page, Offset + i, Byte) for
each i in [0, Size), in order; the first Fatal aborts the run. -/
def memsetInPage (m : ZXMemModel) (Page Offset Byte Size : Nat) :
    Option ZXMemModel :=
  match Size with
  | 0 => some m
  | n + 1 =>
    match m.writeByteToPage Page Offset Byte with
    | none => none
    | some m2 => m2.memsetInPage Page (Offset + 1) Byte n

/-- Modelled from the spec: the ZXMemModel constructor is defined in
memory.cpp, which is not under src/.  The header gives the default member
initializer SlotPages = 0, 5, 2, 7; the spec (sections 3 and 4.3) fixes the
page count per model name and zeroed storage on a fresh model. -/
def zxFresh (NPages : Nat) : ZXMemModel :=
  { NumPages := NPages
    SlotPages := fun s => [0, 5, 2, 7].getD s.val 0
    Memory := fun _ => 0
    MemUsage := fun _ => false }

/-- The slot-to-page invariant of the banked model (spec, section 3): every
slot maps to a valid page index, so every logical address reaches an
offset inside the NumPages * 0x4000 byte physical buffer. -/
def slotsValid (m : ZXMemModel) : Prop :=
  ∀ s : Fin 4, m.SlotPages s < m.NumPages

instance (m : ZXMemModel) : Decidable m.slotsValid := by
  unfold slotsValid; infer_instance

end ZXMemModel

/-- The closed set of model variants held by the registry (MemModel is the
abstract base class; the two concrete subclasses are PlainMemModel and
ZXMemModel). -/
inductive ActiveModel where
  | plain : PlainMemModel → ActiveModel
  | zx : ZXMemModel → ActiveModel

namespace ActiveModel

/-- Virtual dispatch of MemModel.writeByte over the two variants. -/
def writeByte (am : ActiveModel) (Addr Byte : Nat) (Ephemeral : Bool) :
    ActiveModel :=
  match am with
  | plain s => plain (s.writeByte Addr Byte Ephemeral)
  | zx m => zx (m.writeByte Addr Byte Ephemeral)

/-- Virtual dispatch of MemModel.readByte over the two variants. -/
def readByte (am : ActiveModel) (Addr : Nat) : Nat :=
  match am with
  | plain s => s.readByte Addr
  | zx m => m.readByte Addr

/-- Virtual dispatch of MemModel.usedAddr over the two variants. -/
def usedAddr (am : ActiveModel) (Addr : Nat) : Bool :=
  match am with
  | plain s => s.usedAddr Addr
  | zx m => m.usedAddr Addr

/-- Virtual dispatch of MemModel.clearEphemerals over the two variants. -/
def clearEphemerals (am : ActiveModel) : ActiveModel :=
  match am with
  | plain s => plain s.clearEphemerals
  | zx m => zx m.clearEphemerals

end ActiveModel

/-- The registry (class MemoryManager in memory.h) after model selection:
CurrentMemModel points at the active model.  Per the spec (section 4.4) no
operation is valid before selection, so the embedded state is the
post-selection one. -/
structure MemoryManager where
  CurrentMemModel : ActiveModel

namespace MemoryManager

/-- MemoryManager.writeByte: forwards to
CurrentMemModel->writeByte(Addr, Byte, false) — the ephemeral flag is
hard-coded to false, i.e. the registry always issues a committed write. -/
def writeByte (mm : MemoryManager) (Addr Byte : Nat) : MemoryManager :=
  { CurrentMemModel := mm.CurrentMemModel.writeByte Addr Byte false }

end MemoryManager

/-! ### Basic lemmas about the flat model -/

namespace PlainMemModel

theorem plain_readByte_writeByte_same (s : PlainMemModel) (A1 A2 B : Nat) (e : Bool)
    (h : A1 % 0x10000 = A2 % 0x10000) :
    (s.writeByte A1 B e).readByte A2 = B % 256 := by
  simp [writeByte, readByte, h]

theorem plain_readByte_writeByte_other (s : PlainMemModel) (A1 A2 B : Nat) (e : Bool)
    (h : A1 % 0x10000 ≠ A2 % 0x10000) :
    (s.writeByte A1 B e).readByte A2 = s.readByte A2 := by
  simp [writeByte, readByte, Fin.mk.injEq, Ne.symm h]

theorem plain_usedAddr_writeByte_ephemeral (s : PlainMemModel) (A B X : Nat) :
    (s.writeByte A B true).usedAddr X = s.usedAddr X := rfl

theorem plain_usedAddr_writeByte_committed_same (s : PlainMemModel) (A1 A2 B : Nat)
    (h : A1 % 0x10000 = A2 % 0x10000) :
    (s.writeByte A1 B false).usedAddr A2 = true := by
  simp [writeByte, usedAddr, h]

theorem readByte_clearEphemerals (s : PlainMemModel) (a : Nat) :
    s.clearEphemerals.readByte a = if s.usedAddr a then s.readByte a else 0 := rfl

theorem plain_usedAddr_clearEphemerals (s : PlainMemModel) (a : Nat) :
    s.clearEphemerals.usedAddr a = s.usedAddr a := rfl

theorem plain_clearEphemerals_idem (s : PlainMemModel) :
    s.clearEphemerals.clearEphemerals = s.clearEphemerals := by
  unfold clearEphemerals
  ext i
  · simp only
    cases hu : s.MemUsage i <;> simp [hu]
  · rfl

end PlainMemModel

/-! ### Basic lemmas about the banked model -/

namespace ZXMemModel

theorem addrToOffset_writeByte (m : ZXMemModel) (A B : Nat) (e : Bool) (X : Nat) :
    (m.writeByte A B e).addrToOffset X = m.addrToOffset X := rfl

theorem addrToOffset_clearEphemerals (m : ZXMemModel) (X : Nat) :
    m.clearEphemerals.addrToOffset X = m.addrToOffset X := rfl

theorem addrToOffset_mod (m : ZXMemModel) (A1 A2 : Nat)
    (h : A1 % 0x10000 = A2 % 0x10000) :
    m.addrToOffset A1 = m.addrToOffset A2 := by
  simp [addrToOffset, h]

theorem addrToOffset_lt (m : ZXMemModel) (h : m.slotsValid) (Addr : Nat) :
    m.addrToOffset Addr < m.NumPages * 0x4000 := by
  have key : ∀ s : Fin 4,
      m.SlotPages s * 0x4000 + Addr % 0x10000 % 0x4000 < m.NumPages * 0x4000 := by
    intro s
    have h2 := h s
    have h3 := Nat.mul_le_mul_right 0x4000 (Nat.succ_le_of_lt h2)
    have h4 : Addr % 0x10000 % 0x4000 < 0x4000 := Nat.mod_lt _ (by norm_num)
    omega
  exact key _

theorem readByte_writeByte_same (m : ZXMemModel) (A1 A2 B : Nat) (e : Bool)
    (h : m.addrToOffset A1 = m.addrToOffset A2) :
    (m.writeByte A1 B e).readByte A2 = B % 256 := by
  unfold readByte
  rw [addrToOffset_writeByte]
  show (if m.addrToOffset A2 = m.addrToOffset A1 then B % 256
    else m.Memory (m.addrToOffset A2)) = B % 256
  rw [if_pos h.symm]

theorem usedAddr_writeByte_ephemeral (m : ZXMemModel) (A B X : Nat) :
    (m.writeByte A B true).usedAddr X = m.usedAddr X := rfl

theorem usedAddr_writeByte_committed_same (m : ZXMemModel) (A1 A2 B : Nat)
    (h : m.addrToOffset A1 = m.addrToOffset A2) :
    (m.writeByte A1 B false).usedAddr A2 = true := by
  unfold usedAddr
  rw [addrToOffset_writeByte]
  show (if m.addrToOffset A2 = m.addrToOffset A1 then true
    else m.MemUsage (m.addrToOffset A2)) = true
  rw [if_pos h.symm]

theorem slotsValid_writeByte (m : ZXMemModel) (A B : Nat) (e : Bool)
    (h : m.slotsValid) : (m.writeByte A B e).slotsValid := h

theorem readByte_clearEphemerals_of_used (m : ZXMemModel) (a : Nat)
    (h : m.usedAddr a = true) :
    m.clearEphemerals.readByte a = m.readByte a := by
  unfold readByte
  rw [addrToOffset_clearEphemerals]
  show (if m.addrToOffset a < m.NumPages * 0x4000 ∧
      m.MemUsage (m.addrToOffset a) = false then 0
    else m.Memory (m.addrToOffset a)) = m.Memory (m.addrToOffset a)
  rw [if_neg]
  intro hc
  rw [show m.MemUsage (m.addrToOffset a) = true from h] at hc
  exact absurd hc.2 (by simp)

theorem readByte_clearEphemerals_of_unused (m : ZXMemModel) (hv : m.slotsValid)
    (a : Nat) (h : m.usedAddr a = false) :
    m.clearEphemerals.readByte a = 0 := by
  unfold readByte
  rw [addrToOffset_clearEphemerals]
  show (if m.addrToOffset a < m.NumPages * 0x4000 ∧
      m.MemUsage (m.addrToOffset a) = false then 0
    else m.Memory (m.addrToOffset a)) = 0
  rw [if_pos ⟨addrToOffset_lt m hv a, h⟩]

theorem usedAddr_clearEphemerals (m : ZXMemModel) (a : Nat) :
    m.clearEphemerals.usedAddr a = m.usedAddr a := rfl

theorem slotsValid_clearEphemerals (m : ZXMemModel) (h : m.slotsValid) :
    m.clearEphemerals.slotsValid := h

theorem clearEphemerals_idem (m : ZXMemModel) :
    m.clearEphemerals.clearEphemerals = m.clearEphemerals := by
  unfold clearEphemerals
  ext i
  · rfl
  · rfl
  · simp only
    by_cases hc : i < m.NumPages * 0x4000 ∧ m.MemUsage i = false
    · simp [hc]
    · simp [hc]
  · rfl

end ZXMemModel

/-! ### Further lemmas shared by several claims -/

namespace PlainMemModel

theorem plain_writeByte_mod_congr (s : PlainMemModel) (A1 A2 B1 B2 : Nat) (e : Bool)
    (hA : A1 % 0x10000 = A2 % 0x10000) (hB : B1 % 256 = B2 % 256) :
    s.writeByte A1 B1 e = s.writeByte A2 B2 e := by
  unfold writeByte
  simp only [hA, hB]

theorem plain_iterate_clearEphemerals_used (s : PlainMemModel) (a : Nat) (n : Nat)
    (h : s.usedAddr a = true) :
    (PlainMemModel.clearEphemerals^[n] s).readByte a = s.readByte a ∧
      (PlainMemModel.clearEphemerals^[n] s).usedAddr a = true := by
  induction n with
  | zero => exact ⟨rfl, h⟩
  | succ k ih =>
    obtain ⟨ih1, ih2⟩ := ih
    rw [Function.iterate_succ_apply']
    refine ⟨?_, ?_⟩
    · rw [readByte_clearEphemerals, ih2]
      simpa using ih1
    · rw [plain_usedAddr_clearEphemerals]
      exact ih2

end PlainMemModel

namespace ZXMemModel

theorem readByte_mod (m : ZXMemModel) (A1 A2 : Nat)
    (h : A1 % 0x10000 = A2 % 0x10000) : m.readByte A1 = m.readByte A2 := by
  unfold readByte
  rw [addrToOffset_mod m A1 A2 h]

theorem readByte_writeByte_other (m : ZXMemModel) (A1 A2 B : Nat) (e : Bool)
    (h : m.addrToOffset A1 ≠ m.addrToOffset A2) :
    (m.writeByte A1 B e).readByte A2 = m.readByte A2 := by
  unfold readByte
  rw [addrToOffset_writeByte]
  show (if m.addrToOffset A2 = m.addrToOffset A1 then B % 256
    else m.Memory (m.addrToOffset A2)) = m.Memory (m.addrToOffset A2)
  rw [if_neg (fun hq => h hq.symm)]

theorem writeByte_mod_congr (m : ZXMemModel) (A1 A2 B1 B2 : Nat) (e : Bool)
    (hA : A1 % 0x10000 = A2 % 0x10000) (hB : B1 % 256 = B2 % 256) :
    m.writeByte A1 B1 e = m.writeByte A2 B2 e := by
  unfold writeByte
  rw [addrToOffset_mod m A1 A2 hA, hB]

theorem readByte_clear (m : ZXMemModel) (h : m.slotsValid) (a : Nat) :
    m.clear.readByte a = 0 := by
  unfold readByte
  rw [show m.clear.addrToOffset a = m.addrToOffset a from rfl]
  show (if m.addrToOffset a < m.NumPages * 0x4000 then 0
    else m.Memory (m.addrToOffset a)) = 0
  rw [if_pos (addrToOffset_lt m h a)]

theorem usedAddr_clear (m : ZXMemModel) (h : m.slotsValid) (a : Nat) :
    m.clear.usedAddr a = false := by
  unfold usedAddr
  rw [show m.clear.addrToOffset a = m.addrToOffset a from rfl]
  show (if m.addrToOffset a < m.NumPages * 0x4000 then false
    else m.MemUsage (m.addrToOffset a)) = false
  rw [if_pos (addrToOffset_lt m h a)]

theorem slotsValid_clear (m : ZXMemModel) (h : m.slotsValid) :
    m.clear.slotsValid := h

theorem iterate_clearEphemerals_used (m : ZXMemModel) (a : Nat) (n : Nat)
    (h : m.usedAddr a = true) :
    (ZXMemModel.clearEphemerals^[n] m).readByte a = m.readByte a ∧
      (ZXMemModel.clearEphemerals^[n] m).usedAddr a = true := by
  induction n with
  | zero => exact ⟨rfl, h⟩
  | succ k ih =>
    obtain ⟨ih1, ih2⟩ := ih
    rw [Function.iterate_succ_apply']
    refine ⟨?_, ?_⟩
    · rw [readByte_clearEphemerals_of_used _ a ih2]
      exact ih1
    · rw [usedAddr_clearEphemerals]
      exact ih2

end ZXMemModel

/-! ### Claim theorems -/

/-- C3: for every address a and byte value v, on a freshly cleared model
(after clear()), readByte(a) returns 0 and usedAddr(a) is false; after a
committed write writeByte(a, v, false), readByte(a) = v and usedAddr(a)
is true — on the flat model and, under the slot-to-page invariant, on the
banked model. -/
theorem C3_cleared_model_read_write (sP : PlainMemModel) (mZ : ZXMemModel)
    (hZ : mZ.slotsValid) (a v : Nat) (hv : v < 256) :
    (sP.clear.readByte a = 0 ∧ sP.clear.usedAddr a = false ∧
      (sP.clear.writeByte a v false).readByte a = v ∧
      (sP.clear.writeByte a v false).usedAddr a = true) ∧
    (mZ.clear.readByte a = 0 ∧ mZ.clear.usedAddr a = false ∧
      (mZ.clear.writeByte a v false).readByte a = v ∧
      (mZ.clear.writeByte a v false).usedAddr a = true) := by
  constructor
  · refine ⟨rfl, rfl, ?_, ?_⟩
    · rw [PlainMemModel.plain_readByte_writeByte_same _ a a v false rfl]
      exact Nat.mod_eq_of_lt hv
    · exact PlainMemModel.plain_usedAddr_writeByte_committed_same _ a a v rfl
  · refine ⟨ZXMemModel.readByte_clear mZ hZ a, ZXMemModel.usedAddr_clear mZ hZ a,
      ?_, ?_⟩
    · rw [ZXMemModel.readByte_writeByte_same _ a a v false rfl]
      exact Nat.mod_eq_of_lt hv
    · exact ZXMemModel.usedAddr_writeByte_committed_same _ a a v rfl

/-- Witness for C3 at the fresh flat model, the fresh 8-page banked model,
address 0x8012 and value 0xAB. -/
theorem C3_witness :
    (PlainMemModel.plainFresh.clear.readByte 0x8012 = 0 ∧
      PlainMemModel.plainFresh.clear.usedAddr 0x8012 = false ∧
      (PlainMemModel.plainFresh.clear.writeByte 0x8012 0xAB false).readByte 0x8012 = 0xAB ∧
      (PlainMemModel.plainFresh.clear.writeByte 0x8012 0xAB false).usedAddr 0x8012 = true) ∧
    ((ZXMemModel.zxFresh 8).clear.readByte 0x8012 = 0 ∧
      (ZXMemModel.zxFresh 8).clear.usedAddr 0x8012 = false ∧
      ((ZXMemModel.zxFresh 8).clear.writeByte 0x8012 0xAB false).readByte 0x8012 = 0xAB ∧
      ((ZXMemModel.zxFresh 8).clear.writeByte 0x8012 0xAB false).usedAddr 0x8012 = true) :=
  C3_cleared_model_read_write PlainMemModel.plainFresh (ZXMemModel.zxFresh 8)
    (by decide) 0x8012 0xAB (by decide)

/-- C4: on the banked model, logical-to-physical translation of every
16-bit address addr is SlotPages[addr / 0x4000] * 0x4000 + (addr % 0x4000),
and immediately after construction the slot-to-page mapping is
0 -> 0, 1 -> 5, 2 -> 2, 3 -> 7, so getPageForAddress on the four slot
bases returns 0, 5, 2, 7, with getDefaultSlot() = 3. -/
theorem C4_banked_translation_default_mapping :
    (∀ (m : ZXMemModel) (addr : Nat) (h : addr < 0x10000),
      m.addrToOffset addr =
        m.getPageNumInSlot ⟨addr / 0x4000, by omega⟩ * 0x4000 + addr % 0x4000) ∧
    (∀ n : Nat,
      (ZXMemModel.zxFresh n).getPageNumInSlot 0 = 0 ∧
      (ZXMemModel.zxFresh n).getPageNumInSlot 1 = 5 ∧
      (ZXMemModel.zxFresh n).getPageNumInSlot 2 = 2 ∧
      (ZXMemModel.zxFresh n).getPageNumInSlot 3 = 7 ∧
      (ZXMemModel.zxFresh n).getPageForAddress 0x0000 = 0 ∧
      (ZXMemModel.zxFresh n).getPageForAddress 0x4000 = 5 ∧
      (ZXMemModel.zxFresh n).getPageForAddress 0x8000 = 2 ∧
      (ZXMemModel.zxFresh n).getPageForAddress 0xC000 = 7 ∧
      (ZXMemModel.zxFresh n).getDefaultSlot = 3) := by
  constructor
  · intro m addr h
    unfold ZXMemModel.addrToOffset ZXMemModel.getPageNumInSlot
    simp only [Nat.mod_eq_of_lt h]
  · intro n
    exact ⟨rfl, rfl, rfl, rfl, rfl, rfl, rfl, rfl, rfl⟩

/-- Witness for C4 at address 0x9123 on the fresh 8-page banked model. -/
theorem C4_witness :
    (ZXMemModel.zxFresh 8).addrToOffset 0x9123 =
      (ZXMemModel.zxFresh 8).getPageNumInSlot ⟨0x9123 / 0x4000, by omega⟩ * 0x4000 +
        0x9123 % 0x4000 ∧
    ((ZXMemModel.zxFresh 8).getPageNumInSlot 0 = 0 ∧
      (ZXMemModel.zxFresh 8).getPageNumInSlot 1 = 5 ∧
      (ZXMemModel.zxFresh 8).getPageNumInSlot 2 = 2 ∧
      (ZXMemModel.zxFresh 8).getPageNumInSlot 3 = 7 ∧
      (ZXMemModel.zxFresh 8).getPageForAddress 0x0000 = 0 ∧
      (ZXMemModel.zxFresh 8).getPageForAddress 0x4000 = 5 ∧
      (ZXMemModel.zxFresh 8).getPageForAddress 0x8000 = 2 ∧
      (ZXMemModel.zxFresh 8).getPageForAddress 0xC000 = 7 ∧
      (ZXMemModel.zxFresh 8).getDefaultSlot = 3) :=
  ⟨C4_banked_translation_default_mapping.1 (ZXMemModel.zxFresh 8) 0x9123 (by decide),
    C4_banked_translation_default_mapping.2 8⟩

/-- C7: on the flat model, every setPage call (slot form and address form),
for all argument values, returns the fixed error string and leaves the
model state unchanged; isPagedMemory() is false and getNumMemPages() is 0. -/
theorem C7_plain_setPage_fixed_error (s : PlainMemModel) (Slot Page : Int)
    (Addr : Nat) (Page2 : Int) :
    s.setPage Slot Page =
      (s, some "The PLAIN memory model does not support page switching") ∧
    s.setPageAddr Addr Page2 =
      (s, some "The PLAIN memory model does not support page switching") ∧
    s.isPagedMemory = false ∧ s.getNumMemPages = 0 :=
  ⟨rfl, rfl, rfl, rfl⟩

/-- Witness for C7 at the fresh flat model with slot -1 and page 99. -/
theorem C7_witness :
    PlainMemModel.plainFresh.setPage (-1) 99 =
      (PlainMemModel.plainFresh,
        some "The PLAIN memory model does not support page switching") ∧
    PlainMemModel.plainFresh.setPageAddr 0x4321 7 =
      (PlainMemModel.plainFresh,
        some "The PLAIN memory model does not support page switching") ∧
    PlainMemModel.plainFresh.isPagedMemory = false ∧
    PlainMemModel.plainFresh.getNumMemPages = 0 :=
  C7_plain_setPage_fixed_error PlainMemModel.plainFresh (-1) 99 0x4321 7

/-- C1: an ephemeral write writeByte(a, v, true) stores v (readByte(a) = v)
without setting any used-marker; a subsequent clearEphemerals() restores
readByte(a) to 0, unless a prior committed write touched the same physical
location (the byte stays v) or a subsequent committed write covered it
(the byte stays as committed) — on the flat model and, under the
slot-to-page invariant, on the banked model. -/
theorem C1_ephemeral_roundtrip (sP : PlainMemModel) (mZ : ZXMemModel)
    (hZ : mZ.slotsValid) (a v w : Nat) (hv : v < 256) (hw : w < 256) :
    ((sP.writeByte a v true).readByte a = v ∧
      (∀ x, (sP.writeByte a v true).usedAddr x = sP.usedAddr x) ∧
      (sP.usedAddr a = false →
        (sP.writeByte a v true).clearEphemerals.readByte a = 0) ∧
      (sP.usedAddr a = true →
        (sP.writeByte a v true).clearEphemerals.readByte a = v) ∧
      ((sP.writeByte a v true).writeByte a w false).clearEphemerals.readByte a
        = w) ∧
    ((mZ.writeByte a v true).readByte a = v ∧
      (∀ x, (mZ.writeByte a v true).usedAddr x = mZ.usedAddr x) ∧
      (mZ.usedAddr a = false →
        (mZ.writeByte a v true).clearEphemerals.readByte a = 0) ∧
      (mZ.usedAddr a = true →
        (mZ.writeByte a v true).clearEphemerals.readByte a = v) ∧
      ((mZ.writeByte a v true).writeByte a w false).clearEphemerals.readByte a
        = w) := by
  constructor
  · refine ⟨?_, ?_, ?_, ?_, ?_⟩
    · rw [PlainMemModel.plain_readByte_writeByte_same _ a a v true rfl]
      exact Nat.mod_eq_of_lt hv
    · intro x
      exact PlainMemModel.plain_usedAddr_writeByte_ephemeral sP a v x
    · intro h
      rw [PlainMemModel.readByte_clearEphemerals,
        PlainMemModel.plain_usedAddr_writeByte_ephemeral, h]
      simp
    · intro h
      rw [PlainMemModel.readByte_clearEphemerals,
        PlainMemModel.plain_usedAddr_writeByte_ephemeral, h]
      simp only [if_true]
      rw [PlainMemModel.plain_readByte_writeByte_same _ a a v true rfl]
      exact Nat.mod_eq_of_lt hv
    · rw [PlainMemModel.readByte_clearEphemerals,
        PlainMemModel.plain_usedAddr_writeByte_committed_same _ a a w rfl]
      simp only [if_true]
      rw [PlainMemModel.plain_readByte_writeByte_same _ a a w false rfl]
      exact Nat.mod_eq_of_lt hw
  · refine ⟨?_, ?_, ?_, ?_, ?_⟩
    · rw [ZXMemModel.readByte_writeByte_same _ a a v true rfl]
      exact Nat.mod_eq_of_lt hv
    · intro x
      exact ZXMemModel.usedAddr_writeByte_ephemeral mZ a v x
    · intro h
      have h2 : (mZ.writeByte a v true).usedAddr a = false := by
        rw [ZXMemModel.usedAddr_writeByte_ephemeral]
        exact h
      exact ZXMemModel.readByte_clearEphemerals_of_unused _
        (ZXMemModel.slotsValid_writeByte mZ a v true hZ) a h2
    · intro h
      have h2 : (mZ.writeByte a v true).usedAddr a = true := by
        rw [ZXMemModel.usedAddr_writeByte_ephemeral]
        exact h
      rw [ZXMemModel.readByte_clearEphemerals_of_used _ a h2,
        ZXMemModel.readByte_writeByte_same _ a a v true rfl]
      exact Nat.mod_eq_of_lt hv
    · rw [ZXMemModel.readByte_clearEphemerals_of_used _ a
        (ZXMemModel.usedAddr_writeByte_committed_same _ a a w rfl),
        ZXMemModel.readByte_writeByte_same _ a a w false rfl]
      exact Nat.mod_eq_of_lt hw

/-- Witness for C1 at the fresh flat model and fresh 8-page banked model,
address 0x6000, ephemeral value 0x21, committed value 0x42. -/
theorem C1_witness :
    ((PlainMemModel.plainFresh.writeByte 0x6000 0x21 true).readByte 0x6000 = 0x21 ∧
      (∀ x, (PlainMemModel.plainFresh.writeByte 0x6000 0x21 true).usedAddr x =
        PlainMemModel.plainFresh.usedAddr x) ∧
      (PlainMemModel.plainFresh.usedAddr 0x6000 = false →
        (PlainMemModel.plainFresh.writeByte 0x6000 0x21 true).clearEphemerals.readByte 0x6000 = 0) ∧
      (PlainMemModel.plainFresh.usedAddr 0x6000 = true →
        (PlainMemModel.plainFresh.writeByte 0x6000 0x21 true).clearEphemerals.readByte 0x6000 = 0x21) ∧
      ((PlainMemModel.plainFresh.writeByte 0x6000 0x21 true).writeByte 0x6000 0x42 false).clearEphemerals.readByte 0x6000 = 0x42) ∧
    (((ZXMemModel.zxFresh 8).writeByte 0x6000 0x21 true).readByte 0x6000 = 0x21 ∧
      (∀ x, ((ZXMemModel.zxFresh 8).writeByte 0x6000 0x21 true).usedAddr x =
        (ZXMemModel.zxFresh 8).usedAddr x) ∧
      ((ZXMemModel.zxFresh 8).usedAddr 0x6000 = false →
        ((ZXMemModel.zxFresh 8).writeByte 0x6000 0x21 true).clearEphemerals.readByte 0x6000 = 0) ∧
      ((ZXMemModel.zxFresh 8).usedAddr 0x6000 = true →
        ((ZXMemModel.zxFresh 8).writeByte 0x6000 0x21 true).clearEphemerals.readByte 0x6000 = 0x21) ∧
      (((ZXMemModel.zxFresh 8).writeByte 0x6000 0x21 true).writeByte 0x6000 0x42 false).clearEphemerals.readByte 0x6000 = 0x42) :=
  C1_ephemeral_roundtrip PlainMemModel.plainFresh (ZXMemModel.zxFresh 8)
    (by decide) 0x6000 0x21 0x42 (by decide) (by decide)

/-- C2: clearEphemerals() is idempotent, never changes a byte whose
used-marker is true, and after a committed write writeByte(a, v, false)
any number n of clearEphemerals() calls leaves readByte(a) = v — on both
model variants. -/
theorem C2_clearEphemerals_algebra (sP : PlainMemModel) (mZ : ZXMemModel)
    (a v n : Nat) (hv : v < 256) :
    (sP.clearEphemerals.clearEphemerals = sP.clearEphemerals ∧
      (∀ i, sP.MemUsage i = true →
        sP.clearEphemerals.Memory i = sP.Memory i) ∧
      (PlainMemModel.clearEphemerals^[n] (sP.writeByte a v false)).readByte a
        = v) ∧
    (mZ.clearEphemerals.clearEphemerals = mZ.clearEphemerals ∧
      (∀ i, mZ.MemUsage i = true →
        mZ.clearEphemerals.Memory i = mZ.Memory i) ∧
      (ZXMemModel.clearEphemerals^[n] (mZ.writeByte a v false)).readByte a
        = v) := by
  refine ⟨⟨PlainMemModel.plain_clearEphemerals_idem sP, ?_, ?_⟩,
    ⟨ZXMemModel.clearEphemerals_idem mZ, ?_, ?_⟩⟩
  · intro i hi
    show (if sP.MemUsage i then sP.Memory i else 0) = sP.Memory i
    rw [hi]
    simp
  · rw [(PlainMemModel.plain_iterate_clearEphemerals_used (sP.writeByte a v false) a n
      (PlainMemModel.plain_usedAddr_writeByte_committed_same sP a a v rfl)).1,
      PlainMemModel.plain_readByte_writeByte_same _ a a v false rfl]
    exact Nat.mod_eq_of_lt hv
  · intro i hi
    show (if i < mZ.NumPages * 0x4000 ∧ mZ.MemUsage i = false then 0
      else mZ.Memory i) = mZ.Memory i
    rw [if_neg]
    intro hc
    rw [hi] at hc
    exact absurd hc.2 (by simp)
  · rw [(ZXMemModel.iterate_clearEphemerals_used (mZ.writeByte a v false) a n
      (ZXMemModel.usedAddr_writeByte_committed_same mZ a a v rfl)).1,
      ZXMemModel.readByte_writeByte_same _ a a v false rfl]
    exact Nat.mod_eq_of_lt hv

/-- Witness for C2 at the fresh models after two rollback iterations,
address 0x0123, value 0x7F. -/
theorem C2_witness :
    (PlainMemModel.plainFresh.clearEphemerals.clearEphemerals =
        PlainMemModel.plainFresh.clearEphemerals ∧
      (∀ i, PlainMemModel.plainFresh.MemUsage i = true →
        PlainMemModel.plainFresh.clearEphemerals.Memory i =
          PlainMemModel.plainFresh.Memory i) ∧
      (PlainMemModel.clearEphemerals^[2]
        (PlainMemModel.plainFresh.writeByte 0x0123 0x7F false)).readByte 0x0123
        = 0x7F) ∧
    ((ZXMemModel.zxFresh 8).clearEphemerals.clearEphemerals =
        (ZXMemModel.zxFresh 8).clearEphemerals ∧
      (∀ i, (ZXMemModel.zxFresh 8).MemUsage i = true →
        (ZXMemModel.zxFresh 8).clearEphemerals.Memory i =
          (ZXMemModel.zxFresh 8).Memory i) ∧
      (ZXMemModel.clearEphemerals^[2]
        ((ZXMemModel.zxFresh 8).writeByte 0x0123 0x7F false)).readByte 0x0123
        = 0x7F) :=
  C2_clearEphemerals_algebra PlainMemModel.plainFresh (ZXMemModel.zxFresh 8)
    0x0123 0x7F 2 (by decide)

/-- C6: writeWord(a, w, e) performs exactly two writeByte calls, low byte
first at a and high byte at (a + 1) mod 0x10000, so
writeWord(0xFFFF, 0x1234, false) places 0x34 at 0xFFFF and 0x12 at 0x0000
— on both model variants. -/
theorem C6_writeWord_low_high_wrap (sP : PlainMemModel) (mZ : ZXMemModel)
    (a w : Nat) (e : Bool) :
    sP.writeWord a w e =
      (sP.writeByte a (w % 256) e).writeByte ((a + 1) % 0x10000)
        (w % 0x10000 / 256) e ∧
    mZ.writeWord a w e =
      (mZ.writeByte a (w % 256) e).writeByte ((a + 1) % 0x10000)
        (w % 0x10000 / 256) e ∧
    (sP.writeWord 0xFFFF 0x1234 false).readByte 0xFFFF = 0x34 ∧
    (sP.writeWord 0xFFFF 0x1234 false).readByte 0x0000 = 0x12 ∧
    (mZ.writeWord 0xFFFF 0x1234 false).readByte 0xFFFF = 0x34 ∧
    (mZ.writeWord 0xFFFF 0x1234 false).readByte 0x0000 = 0x12 := by
  refine ⟨?_, ?_, ?_, ?_, ?_, ?_⟩
  · calc sP.writeWord a w e
        = (sP.writeByte a (w % 0x10000 % 256) e).writeByte
            (a % 0x10000 + 1) (w % 0x10000 / 256) e := rfl
      _ = (sP.writeByte a (w % 256) e).writeByte
            (a % 0x10000 + 1) (w % 0x10000 / 256) e := by
          rw [PlainMemModel.plain_writeByte_mod_congr sP a a
            (w % 0x10000 % 256) (w % 256) e rfl (by omega)]
      _ = (sP.writeByte a (w % 256) e).writeByte
            ((a + 1) % 0x10000) (w % 0x10000 / 256) e :=
          PlainMemModel.plain_writeByte_mod_congr _ (a % 0x10000 + 1)
            ((a + 1) % 0x10000) (w % 0x10000 / 256) (w % 0x10000 / 256) e
            (by omega) rfl
  · calc mZ.writeWord a w e
        = (mZ.writeByte a (w % 0x10000 % 256) e).writeByte
            (a % 0x10000 + 1) (w % 0x10000 / 256) e := rfl
      _ = (mZ.writeByte a (w % 256) e).writeByte
            (a % 0x10000 + 1) (w % 0x10000 / 256) e := by
          rw [ZXMemModel.writeByte_mod_congr mZ a a
            (w % 0x10000 % 256) (w % 256) e rfl (by omega)]
      _ = (mZ.writeByte a (w % 256) e).writeByte
            ((a + 1) % 0x10000) (w % 0x10000 / 256) e :=
          ZXMemModel.writeByte_mod_congr _ (a % 0x10000 + 1)
            ((a + 1) % 0x10000) (w % 0x10000 / 256) (w % 0x10000 / 256) e
            (by omega) rfl
  · show ((sP.writeByte 0xFFFF (0x1234 % 0x10000 % 256) false).writeByte
      (0xFFFF % 0x10000 + 1) (0x1234 % 0x10000 / 256) false).readByte 0xFFFF
      = 0x34
    rw [PlainMemModel.plain_readByte_writeByte_other _ (0xFFFF % 0x10000 + 1) 0xFFFF
      (0x1234 % 0x10000 / 256) false (by omega),
      PlainMemModel.plain_readByte_writeByte_same _ 0xFFFF 0xFFFF
      (0x1234 % 0x10000 % 256) false rfl]
  · show ((sP.writeByte 0xFFFF (0x1234 % 0x10000 % 256) false).writeByte
      (0xFFFF % 0x10000 + 1) (0x1234 % 0x10000 / 256) false).readByte 0x0000
      = 0x12
    rw [PlainMemModel.plain_readByte_writeByte_same _ (0xFFFF % 0x10000 + 1) 0x0000
      (0x1234 % 0x10000 / 256) false (by omega)]
  · show ((mZ.writeByte 0xFFFF (0x1234 % 0x10000 % 256) false).writeByte
      (0xFFFF % 0x10000 + 1) (0x1234 % 0x10000 / 256) false).readByte 0xFFFF
      = 0x34
    rw [ZXMemModel.readByte_writeByte_other _ (0xFFFF % 0x10000 + 1) 0xFFFF
      (0x1234 % 0x10000 / 256) false (by unfold ZXMemModel.addrToOffset; omega),
      ZXMemModel.readByte_writeByte_same _ 0xFFFF 0xFFFF
      (0x1234 % 0x10000 % 256) false rfl]
  · show ((mZ.writeByte 0xFFFF (0x1234 % 0x10000 % 256) false).writeByte
      (0xFFFF % 0x10000 + 1) (0x1234 % 0x10000 / 256) false).readByte 0x0000
      = 0x12
    rw [ZXMemModel.readByte_writeByte_same _ (0xFFFF % 0x10000 + 1) 0x0000
      (0x1234 % 0x10000 / 256) false (ZXMemModel.addrToOffset_mod _ _ _ (by omega))]

/-- Witness for C6 at the fresh models, address 0x8000, word 0xBEEF,
ephemeral flag true. -/
theorem C6_witness :
    PlainMemModel.plainFresh.writeWord 0x8000 0xBEEF true =
      (PlainMemModel.plainFresh.writeByte 0x8000 (0xBEEF % 256) true).writeByte
        ((0x8000 + 1) % 0x10000) (0xBEEF % 0x10000 / 256) true ∧
    (ZXMemModel.zxFresh 8).writeWord 0x8000 0xBEEF true =
      ((ZXMemModel.zxFresh 8).writeByte 0x8000 (0xBEEF % 256) true).writeByte
        ((0x8000 + 1) % 0x10000) (0xBEEF % 0x10000 / 256) true ∧
    (PlainMemModel.plainFresh.writeWord 0xFFFF 0x1234 false).readByte 0xFFFF
      = 0x34 ∧
    (PlainMemModel.plainFresh.writeWord 0xFFFF 0x1234 false).readByte 0x0000
      = 0x12 ∧
    ((ZXMemModel.zxFresh 8).writeWord 0xFFFF 0x1234 false).readByte 0xFFFF
      = 0x34 ∧
    ((ZXMemModel.zxFresh 8).writeWord 0xFFFF 0x1234 false).readByte 0x0000
      = 0x12 :=
  C6_writeWord_low_high_wrap PlainMemModel.plainFresh (ZXMemModel.zxFresh 8)
    0x8000 0xBEEF true

/-- On the banked model the logical-address bulk read honors 16-bit
wraparound: element i of getBytes(addr, size) is the byte readByte returns
at (addr + i) mod 0x10000. -/
theorem ZXMemModel.getBytes_wraps (m : ZXMemModel) (Addr Size i : Nat)
    (h : i < Size) :
    (m.getBytes Addr Size).getD i 0 = m.readByte ((Addr + i) % 0x10000) := by
  unfold getBytes
  rw [List.getD_eq_getElem?_getD, List.getElem?_map, List.getElem?_range h]
  simp only [Option.map_some', Option.getD_some]
  exact readByte_mod m _ _ (by omega)

/-- C5: divergence of the two getBytes implementations at the top of the
address space.  On the banked model the bulk read wraps from 0xFFFF to
0x0000 (here the committed bytes 0x34 and 0x12 come back in order), while
the flat model indexes its 0x10000-byte array at Addr + i without
truncation to 16 bits, so the same call runs off the end of the array
(undefined behaviour, embedded as none) instead of wrapping. -/
theorem C5_getBytes_wrap_flat_oob :
    (((ZXMemModel.zxFresh 8).writeByte 0x0000 0x12 false).writeByte 0xFFFF 0x34
      false).getBytes 0xFFFF 2 = [0x34, 0x12] ∧
    ((PlainMemModel.plainFresh.writeByte 0x0000 0x12 false).writeByte 0xFFFF 0x34
      false).getBytes 0xFFFF 2 = none := by
  constructor
  · decide
  · decide

/-- C8 counterexample: on the flat model validateSlot(0) returns the fixed
page-switching error even though slot 0 is the flat model default slot
(getDefaultSlot() = 0), so validateSlot does not return none for every
in-range slot on every model. -/
theorem C8_counterexample_plain_default_slot :
    PlainMemModel.plainFresh.getDefaultSlot = 0 ∧
    PlainMemModel.plainFresh.validateSlot 0 =
      some "The PLAIN memory model does not support page switching" :=
  ⟨rfl, rfl⟩

/-- C8 (amended): on the banked model validateSlot(slot) returns none
exactly when slot is in [0, NumSlots); on the flat model every
validateSlot call returns the fixed page-switching error, whatever the
slot. -/
theorem C8_validateSlot_range :
    (∀ (m : ZXMemModel) (Slot : Int),
      m.validateSlot Slot = none ↔ 0 ≤ Slot ∧ Slot < (ZXNumSlots : Int)) ∧
    (∀ (s : PlainMemModel) (Slot : Int),
      s.validateSlot Slot = some PlainMemModel.plainNoPagingError) := by
  constructor
  · intro m Slot
    unfold ZXMemModel.validateSlot ZXNumSlots
    by_cases h : Slot < 0 ∨ ((4 : Nat) : Int) ≤ Slot
    · rw [if_pos h]
      constructor
      · intro hc
        exact absurd hc (by simp)
      · intro hc
        exfalso
        omega
    · rw [if_neg h]
      constructor
      · intro _
        omega
      · intro _
        rfl
  · intro s Slot
    rfl

/-- Witness for C8 at slot 2 of a fresh banked model and slot 7 of the
flat model. -/
theorem C8_witness :
    ((ZXMemModel.zxFresh 8).validateSlot 2 = none ↔
      (0 : Int) ≤ 2 ∧ (2 : Int) < (ZXNumSlots : Int)) ∧
    PlainMemModel.plainFresh.validateSlot 7 =
      some PlainMemModel.plainNoPagingError :=
  ⟨C8_validateSlot_range.1 (ZXMemModel.zxFresh 8) 2,
    C8_validateSlot_range.2 PlainMemModel.plainFresh 7⟩

/-- A successful page-addressed write: when the uint16_t in-page offset is
below PageSize, writeByteToPage stores the byte at physical position
PageSize * Page + Offset and marks it used. -/
theorem ZXMemModel.writeByteToPage_some (m : ZXMemModel) (Page Offset Byte : Nat)
    (h : Offset % 0x10000 < 0x4000) :
    m.writeByteToPage Page Offset Byte = some
      { m with
        Memory := fun j =>
          if j = 0x4000 * Page + Offset % 0x10000 then Byte % 256
          else m.Memory j
        MemUsage := fun j =>
          if j = 0x4000 * Page + Offset % 0x10000 then true
          else m.MemUsage j } := by
  unfold writeByteToPage
  rw [if_neg (by omega)]

/-- A failing page-addressed write: when the uint16_t in-page offset
reaches PageSize, writeByteToPage raises the fatal error. -/
theorem ZXMemModel.writeByteToPage_none (m : ZXMemModel) (Page Offset Byte : Nat)
    (h : 0x4000 ≤ Offset % 0x10000) :
    m.writeByteToPage Page Offset Byte = none := by
  unfold writeByteToPage
  rw [if_pos h]

theorem ZXMemModel.memsetInPage_isSome (m : ZXMemModel)
    (Page Offset Byte Size : Nat) (h : Offset + Size ≤ 0x4000) :
    (m.memsetInPage Page Offset Byte Size).isSome = true := by
  induction Size generalizing m Offset with
  | zero => rfl
  | succ k ih =>
    rw [show m.memsetInPage Page Offset Byte (k + 1) =
      (match m.writeByteToPage Page Offset Byte with
       | none => none
       | some m2 => m2.memsetInPage Page (Offset + 1) Byte k) from rfl]
    rw [writeByteToPage_some m Page Offset Byte
      (by rw [Nat.mod_eq_of_lt (by omega)]; omega)]
    exact ih _ (Offset + 1) (by omega)

theorem ZXMemModel.memsetInPage_none (m : ZXMemModel)
    (Page Offset Byte Size : Nat) (hOff : 0x4000 ≤ Offset % 0x10000)
    (hS : 0 < Size) : m.memsetInPage Page Offset Byte Size = none := by
  cases Size with
  | zero => omega
  | succ k =>
    rw [show m.memsetInPage Page Offset Byte (k + 1) =
      (match m.writeByteToPage Page Offset Byte with
       | none => none
       | some m2 => m2.memsetInPage Page (Offset + 1) Byte k) from rfl]
    rw [writeByteToPage_none m Page Offset Byte hOff]

theorem ZXMemModel.memcpyToPage_isSome (m : ZXMemModel) (Page Offset : Nat)
    (Src : List Nat) (h : Offset + Src.length ≤ 0x4000) :
    (m.memcpyToPage Page Offset Src).isSome = true := by
  induction Src generalizing m Offset with
  | nil => rfl
  | cons b rest ih =>
    have h2 : Offset + (rest.length + 1) ≤ 0x4000 := by
      simpa [Nat.add_comm] using h
    rw [show m.memcpyToPage Page Offset (b :: rest) =
      (match m.writeByteToPage Page Offset b with
       | none => none
       | some m2 => m2.memcpyToPage Page (Offset + 1) rest) from rfl]
    rw [writeByteToPage_some m Page Offset b
      (by rw [Nat.mod_eq_of_lt (by omega)]; omega)]
    exact ih _ (Offset + 1) (by omega)

theorem ZXMemModel.memcpyToPage_none (m : ZXMemModel) (Page Offset : Nat)
    (Src : List Nat) (hOff : 0x4000 ≤ Offset % 0x10000) (hne : Src ≠ []) :
    m.memcpyToPage Page Offset Src = none := by
  cases Src with
  | nil => exact absurd rfl hne
  | cons b rest =>
    rw [show m.memcpyToPage Page Offset (b :: rest) =
      (match m.writeByteToPage Page Offset b with
       | none => none
       | some m2 => m2.memcpyToPage Page (Offset + 1) rest) from rfl]
    rw [writeByteToPage_none m Page Offset b hOff]

/-- C9 (amended): the page-addressed write writeByteToPage(page, offset, b)
fails hard exactly when the in-page offset reaches or exceeds PageSize
(0x4000); for every offset strictly below PageSize the write succeeds and
stores the byte at physical position page * 0x4000 + offset, and the bulk
operations memsetInPage/memcpyToPage built on it succeed whenever every
touched offset stays below PageSize and fail hard as soon as the offset
reaches PageSize. -/
theorem C9_pageWrite_bound (m : ZXMemModel) (Page Offset Byte Size : Nat)
    (hOff : Offset < 0x10000) :
    (m.writeByteToPage Page Offset Byte = none ↔ ZXPageSize ≤ Offset) ∧
    (Offset < ZXPageSize → ∃ m2,
      m.writeByteToPage Page Offset Byte = some m2 ∧
      m2.Memory (ZXPageSize * Page + Offset) = Byte % 256 ∧
      m2.MemUsage (ZXPageSize * Page + Offset) = true) ∧
    (Offset + Size ≤ ZXPageSize →
      (m.memsetInPage Page Offset Byte Size).isSome = true) ∧
    (ZXPageSize ≤ Offset → 0 < Size →
      m.memsetInPage Page Offset Byte Size = none) ∧
    (∀ Src : List Nat, Offset + Src.length ≤ ZXPageSize →
      (m.memcpyToPage Page Offset Src).isSome = true) ∧
    (∀ Src : List Nat, ZXPageSize ≤ Offset → Src ≠ [] →
      m.memcpyToPage Page Offset Src = none) := by
  have hmod : Offset % 0x10000 = Offset := Nat.mod_eq_of_lt hOff
  refine ⟨?_, ?_, ?_, ?_, ?_, ?_⟩
  · unfold ZXMemModel.writeByteToPage ZXPageSize
    rw [hmod]
    by_cases h : 0x4000 ≤ Offset
    · rw [if_pos h]
      simp [h]
    · rw [if_neg h]
      simp [h]
  · intro h2
    refine ⟨_, ZXMemModel.writeByteToPage_some m Page Offset Byte
      (by rw [hmod]; exact h2), ?_, ?_⟩
    · show (if ZXPageSize * Page + Offset = 0x4000 * Page + Offset % 0x10000
        then Byte % 256 else m.Memory (ZXPageSize * Page + Offset)) = Byte % 256
      rw [if_pos (by rw [hmod]; rfl)]
    · show (if ZXPageSize * Page + Offset = 0x4000 * Page + Offset % 0x10000
        then true else m.MemUsage (ZXPageSize * Page + Offset)) = true
      rw [if_pos (by rw [hmod]; rfl)]
  · intro h2
    exact ZXMemModel.memsetInPage_isSome m Page Offset Byte Size h2
  · intro h2 h3
    exact ZXMemModel.memsetInPage_none m Page Offset Byte Size
      (by rw [hmod]; exact h2) h3
  · intro Src h2
    exact ZXMemModel.memcpyToPage_isSome m Page Offset Src h2
  · intro Src h2 h3
    exact ZXMemModel.memcpyToPage_none m Page Offset Src
      (by rw [hmod]; exact h2) h3

/-- C9 counterexample: the in-page offset 0x4000 does not exceed PageSize
(it equals it), yet writeByteToPage fails hard there, so the failure
condition is offset >= PageSize, not offset > PageSize. -/
theorem C9_counterexample_offset_eq_pagesize :
    ¬ ZXPageSize < 0x4000 ∧
    (ZXMemModel.zxFresh 8).writeByteToPage 2 0x4000 0xAA = none := by
  constructor
  · decide
  · rfl

/-- Witness for C9 at the fresh 8-page banked model, page 1, offset 0x100,
byte 0x55, fill size 4. -/
theorem C9_witness :
    ((ZXMemModel.zxFresh 8).writeByteToPage 1 0x100 0x55 = none ↔
      ZXPageSize ≤ 0x100) ∧
    (0x100 < ZXPageSize → ∃ m2,
      (ZXMemModel.zxFresh 8).writeByteToPage 1 0x100 0x55 = some m2 ∧
      m2.Memory (ZXPageSize * 1 + 0x100) = 0x55 % 256 ∧
      m2.MemUsage (ZXPageSize * 1 + 0x100) = true) ∧
    (0x100 + 4 ≤ ZXPageSize →
      ((ZXMemModel.zxFresh 8).memsetInPage 1 0x100 0x55 4).isSome = true) ∧
    (ZXPageSize ≤ 0x100 → 0 < 4 →
      (ZXMemModel.zxFresh 8).memsetInPage 1 0x100 0x55 4 = none) ∧
    (∀ Src : List Nat, 0x100 + Src.length ≤ ZXPageSize →
      ((ZXMemModel.zxFresh 8).memcpyToPage 1 0x100 Src).isSome = true) ∧
    (∀ Src : List Nat, ZXPageSize ≤ 0x100 → Src ≠ [] →
      (ZXMemModel.zxFresh 8).memcpyToPage 1 0x100 Src = none) :=
  C9_pageWrite_bound (ZXMemModel.zxFresh 8) 1 0x100 0x55 4 (by decide)

/-- C10: the registry single-byte write MemoryManager.writeByte(a, v)
forwards a committed write (ephemeral flag false) to the active model:
afterwards readByte(a) = v, usedAddr(a) is true, and the byte survives
clearEphemerals() — whichever variant is active. -/
theorem C10_manager_committed_write (mm : MemoryManager) (a v : Nat)
    (hv : v < 256) :
    (mm.writeByte a v).CurrentMemModel.readByte a = v ∧
    (mm.writeByte a v).CurrentMemModel.usedAddr a = true ∧
    (mm.writeByte a v).CurrentMemModel.clearEphemerals.readByte a = v := by
  obtain ⟨am⟩ := mm
  cases am with
  | plain s =>
    refine ⟨?_, ?_, ?_⟩
    · show (s.writeByte a v false).readByte a = v
      rw [PlainMemModel.plain_readByte_writeByte_same _ a a v false rfl]
      exact Nat.mod_eq_of_lt hv
    · show (s.writeByte a v false).usedAddr a = true
      exact PlainMemModel.plain_usedAddr_writeByte_committed_same _ a a v rfl
    · show (s.writeByte a v false).clearEphemerals.readByte a = v
      rw [PlainMemModel.readByte_clearEphemerals,
        PlainMemModel.plain_usedAddr_writeByte_committed_same _ a a v rfl]
      simp only [if_true]
      rw [PlainMemModel.plain_readByte_writeByte_same _ a a v false rfl]
      exact Nat.mod_eq_of_lt hv
  | zx m =>
    refine ⟨?_, ?_, ?_⟩
    · show (m.writeByte a v false).readByte a = v
      rw [ZXMemModel.readByte_writeByte_same _ a a v false rfl]
      exact Nat.mod_eq_of_lt hv
    · show (m.writeByte a v false).usedAddr a = true
      exact ZXMemModel.usedAddr_writeByte_committed_same _ a a v rfl
    · show (m.writeByte a v false).clearEphemerals.readByte a = v
      rw [ZXMemModel.readByte_clearEphemerals_of_used _ a
        (ZXMemModel.usedAddr_writeByte_committed_same _ a a v rfl),
        ZXMemModel.readByte_writeByte_same _ a a v false rfl]
      exact Nat.mod_eq_of_lt hv

/-- Witness for C10 with the flat model active, address 1000, value 77. -/
theorem C10_witness :
    ((MemoryManager.mk (ActiveModel.plain PlainMemModel.plainFresh)).writeByte
      1000 77).CurrentMemModel.readByte 1000 = 77 ∧
    ((MemoryManager.mk (ActiveModel.plain PlainMemModel.plainFresh)).writeByte
      1000 77).CurrentMemModel.usedAddr 1000 = true ∧
    ((MemoryManager.mk (ActiveModel.plain PlainMemModel.plainFresh)).writeByte
      1000 77).CurrentMemModel.clearEphemerals.readByte 1000 = 77 :=
  C10_manager_committed_write
    (MemoryManager.mk (ActiveModel.plain PlainMemModel.plainFresh)) 1000 77
    (by decide)
